import Mathlib

/-!
Shallow embedding of the QUIC client facade in
`src/android/src/main/cpp/ngtcp2_jni.cpp` (capacitor-mqtt-quic).

The `QuicClient` C++ class is modelled as a Lean structure; the two
`std::map`s (`streams_`, `outgoing_`) are key-sorted association lists;
the external ngtcp2 engine and wolfSSL library calls are oracles passed
in as explicit arguments (their results drive the same branches the C++
code takes on the corresponding return values).  Byte buffers are
`List Nat`.
-/

namespace MqttQuic

/-- `StreamState` from the source: per-stream receive buffer and flags. -/
structure StreamState where
  recv_buf : List Nat
  fin_received : Bool
  closed : Bool
deriving Repr, DecidableEq

/-- Default-constructed `StreamState{}`. -/
def StreamState.mk0 : StreamState := ⟨[], false, false⟩

/-- `OutgoingChunk` from the source: pending send data with an offset cursor
and a FIN flag. -/
structure OutgoingChunk where
  data : List Nat
  offset : Nat
  fin : Bool
deriving Repr, DecidableEq

/-- Arguments of a `ngtcp2_conn_shutdown_stream_write(conn_, flags, stream_id,
app_error_code)` call emitted by `close_stream`. -/
structure ShutdownCall where
  flags : Nat
  stream_id : Int
  app_error_code : Nat
deriving Repr, DecidableEq

/-! ### Association-list model of `std::map` -/

/-- `map.find(k)` — first entry with the key (keys are unique in a
`std::map`, so first = only). -/
def lookupA {α : Type} (m : List (Int × α)) (k : Int) : Option α :=
  match m with
  | [] => none
  | (k', v) :: rest => if k = k' then some v else lookupA rest k

/-- Replace the value stored at an existing key (no-op when absent). -/
def updateA {α : Type} (m : List (Int × α)) (k : Int) (v : α) :
    List (Int × α) :=
  match m with
  | [] => []
  | (k', v') :: rest =>
      if k = k' then (k', v) :: rest else (k', v') :: updateA rest k v

/-- `map.erase(it)` for the entry found by `find(k)`. -/
def eraseA {α : Type} (m : List (Int × α)) (k : Int) : List (Int × α) :=
  match m with
  | [] => []
  | (k', v) :: rest => if k = k' then rest else (k', v) :: eraseA rest k

/-- `outgoing_[stream_id].push_back(chunk)` — `operator[]` inserts a fresh
empty deque in key order when the key is absent, then the chunk is appended. -/
def pushChunk (m : List (Int × List OutgoingChunk)) (k : Int)
    (ch : OutgoingChunk) : List (Int × List OutgoingChunk) :=
  match m with
  | [] => [(k, [ch])]
  | (k', q) :: rest =>
      if k < k' then (k, [ch]) :: (k', q) :: rest
      else if k = k' then (k', q ++ [ch]) :: rest
      else (k', q) :: pushChunk rest k ch

/-- `streams_.emplace(id, StreamState{})` — sorted insert that keeps an
existing entry untouched. -/
def emplaceA (m : List (Int × StreamState)) (k : Int) (v : StreamState) :
    List (Int × StreamState) :=
  match m with
  | [] => [(k, v)]
  | (k', v') :: rest =>
      if k < k' then (k, v) :: (k', v') :: rest
      else if k = k' then (k', v') :: rest
      else (k', v') :: emplaceA rest k v

/-- `streams_[id]` in `on_recv_stream_data`: fetch, default-constructing when
absent. -/
def getOrInsertStream (m : List (Int × StreamState)) (k : Int) : StreamState :=
  (lookupA m k).getD StreamState.mk0

/-! ### Client state -/

/-- The fields of the C++ `QuicClient` that the verified claims depend on.
Pointer-valued resources (`fd_`, `ssl_ctx_`, `ssl_`, `conn_`, the wakeup
pipe) are tracked as initialization flags; `conn_init = true` models
`conn_ != nullptr`. -/
structure QuicClient where
  host : String
  connect_addr : String
  port : Nat
  fd_init : Bool
  tls_init : Bool
  conn_init : Bool
  pipe_init : Bool
  running : Bool
  connected : Bool
  close_requested : Bool
  last_error_str : String
  streams : List (Int × StreamState)
  outgoing : List (Int × List OutgoingChunk)
deriving Repr, DecidableEq

/-- The constructor `QuicClient(host_for_tls, connect_addr, port)`. -/
def freshClient (host_for_tls connect_addr : String) (port : Nat) :
    QuicClient :=
  { host := host_for_tls
    connect_addr := if connect_addr = "" then host_for_tls else connect_addr
    port := port
    fd_init := false, tls_init := false, conn_init := false
    pipe_init := false
    running := false, connected := false, close_requested := false
    last_error_str := ""
    streams := [], outgoing := [] }

/-- `setError` stores the message in `last_error_str_`. -/
def QuicClient.setErr (c : QuicClient) (msg : String) : QuicClient :=
  { c with last_error_str := msg }

/-- `is_connected()` returns the `connected_` flag. -/
def QuicClient.is_connected (c : QuicClient) : Bool := c.connected

/-- `last_error()` returns the stored error string. -/
def QuicClient.last_error (c : QuicClient) : String := c.last_error_str

/-! ### Oracles for external calls -/

/-- Result of one of the fallible init helpers called by `connect`
(`init_socket`, `init_tls`, `init_quic`, `init_wakeup_pipe`): success, or
failure with the message passed to `setError`. -/
inductive InitStep where
  | ok
  | fail (msg : String)
deriving Repr, DecidableEq

/-- Outcome of `cv_state_.wait_for(lock, 15 s, pred)` with
`pred = connected_ || !running_`:
`timedOut` means the 15 s elapsed with the predicate still false (so
`connected_` is still false); `completed connected running loopErr` means
the wait woke with the predicate true and observed `connected_`,
`running_`, and the `last_error_str_` written by the worker loop so
far. -/
inductive WaitOutcome where
  | timedOut
  | completed (connected : Bool) (running : Bool) (loopErr : String)
deriving Repr, DecidableEq

/-- Everything external that `connect` consumes. -/
structure ConnectEnv where
  initSocket : InitStep
  initTls : InitStep
  initQuic : InitStep
  initPipe : InitStep
  wait : WaitOutcome
deriving Repr, DecidableEq

/-- Result of `ngtcp2_conn_open_bidi_stream`: a fresh nonnegative stream id,
or a nonzero `rv` rendered through `ngtcp2_strerror`. -/
inductive OpenRes where
  | ok (sid : Nat)
  | err (msg : String)
deriving Repr, DecidableEq

/-- Result of `ngtcp2_conn_shutdown_stream_write`: zero, or a nonzero `rv`
rendered through `ngtcp2_strerror`. -/
inductive EngineCallRes where
  | ok
  | err (msg : String)
deriving Repr, DecidableEq

/-! ### Facade operations -/

/-- The 15-second cap passed to `cv_state_.wait_for` in `connect`. -/
def handshake_wait_seconds : Nat := 15

/-- `QuicClient::connect` (lines 99-138): early-return 0 when already
connected; `clearError`; the four init steps, each returning -1 on failure;
then the condition-variable wait.  A timeout sets
"QUIC handshake timed out"; a wake with `connected_` false reports the
worker's recorded error, or "QUIC handshake failed" when none was
recorded; a wake with `connected_` true returns 0. -/
def QuicClient.connect (c : QuicClient) (env : ConnectEnv) :
    Int × QuicClient :=
  if c.connected then (0, c)
  else
    let c1 := { c with last_error_str := "" }
    match env.initSocket with
    | .fail m => (-1, c1.setErr m)
    | .ok =>
    let c2 := { c1 with fd_init := true }
    match env.initTls with
    | .fail m => (-1, c2.setErr m)
    | .ok =>
    let c3 := { c2 with tls_init := true }
    match env.initQuic with
    | .fail m => (-1, c3.setErr m)
    | .ok =>
    let c4 := { c3 with conn_init := true }
    match env.initPipe with
    | .fail m => (-1, c4.setErr m)
    | .ok =>
    let c5 := { c4 with pipe_init := true, running := true }
    match env.wait with
    | .timedOut => (-1, c5.setErr "QUIC handshake timed out")
    | .completed conn run loopErr =>
        let c6 := { c5 with connected := conn, running := run,
                            last_error_str := loopErr }
        if conn then (0, c6)
        else if loopErr = "" then (-1, c6.setErr "QUIC handshake failed")
        else (-1, c6)

/-- `QuicClient::open_stream` (lines 140-157). -/
def QuicClient.open_stream (c : QuicClient) (engine : OpenRes) :
    Int × QuicClient :=
  if !c.conn_init then
    (-1, c.setErr "QUIC connection not initialized")
  else
    match engine with
    | .err m => (-1, c.setErr m)
    | .ok sid =>
        ((sid : Int),
         { c with streams := emplaceA c.streams (sid : Int) StreamState.mk0 })

/-- `QuicClient::write_stream` (lines 159-175). -/
def QuicClient.write_stream (c : QuicClient) (stream_id : Int)
    (data : List Nat) (fin : Bool) : Int × QuicClient :=
  if !c.conn_init then
    (-1, c.setErr "QUIC connection not initialized")
  else
    (0, { c with outgoing := pushChunk c.outgoing stream_id ⟨data, 0, fin⟩ })

/-- `QuicClient::read_stream` (lines 177-193): pop
`min maxlen recv_buf.size` bytes from the front of the stream's receive
buffer; absent stream id returns 0 bytes and changes nothing. -/
def QuicClient.read_stream (c : QuicClient) (stream_id : Int)
    (maxlen : Nat) : List Nat × QuicClient :=
  match lookupA c.streams stream_id with
  | none => ([], c)
  | some st =>
      let n := min maxlen st.recv_buf.length
      (st.recv_buf.take n,
       { c with streams := updateA c.streams stream_id
                  { st with recv_buf := st.recv_buf.drop n } })

/-- `QuicClient::close_stream` (lines 195-206): returns 0 without any call
when `conn_` is null; otherwise calls
`ngtcp2_conn_shutdown_stream_write(conn_, 0, stream_id, 0)` and maps a
nonzero `rv` to -1 with `setError`.  The third component records the
emitted engine call. -/
def QuicClient.close_stream (c : QuicClient) (stream_id : Int)
    (engine : EngineCallRes) : Int × QuicClient × Option ShutdownCall :=
  if !c.conn_init then (0, c, none)
  else
    match engine with
    | .err m => (-1, c.setErr m, some ⟨0, stream_id, 0⟩)
    | .ok => (0, c, some ⟨0, stream_id, 0⟩)

/-- `cleanup` nulls out the owned resources (it does not touch
`connected_`). -/
def QuicClient.cleanup (c : QuicClient) : QuicClient :=
  { c with conn_init := false, tls_init := false, fd_init := false,
           pipe_init := false }

/-- `QuicClient::close` (lines 208-223): when the worker is not running,
just cleanup; otherwise request close, join the worker (so `running_`
ends false), and cleanup.  `connected_` is not modified. -/
def QuicClient.close (c : QuicClient) : QuicClient :=
  if !c.running then c.cleanup
  else QuicClient.cleanup
        { c with close_requested := true, running := false }

/-! ### Worker-side callbacks (for the lifecycle claims) -/

/-- Events the worker thread applies to the shared state:
`recv_stream_data`, handshake completion, `stream_close`, and loop exit
(which may record an engine error). -/
inductive WorkerEvent where
  | recvStreamData (stream_id : Int) (data : List Nat) (fin : Bool)
  | handshakeCompleted
  | streamClose (stream_id : Int)
  | loopExit (err : String)
deriving Repr, DecidableEq

/-- `on_recv_stream_data` (lines 229-240): append to the receive buffer of
`streams_[stream_id]` (default-constructing), set `fin_received` on the FIN
flag. -/
def QuicClient.on_recv_stream_data (c : QuicClient) (stream_id : Int)
    (data : List Nat) (fin : Bool) : QuicClient :=
  let st := getOrInsertStream c.streams stream_id
  let st1 := { st with recv_buf := st.recv_buf ++ data }
  let st2 := if fin then { st1 with fin_received := true } else st1
  { c with streams := emplaceA (c.streams) stream_id StreamState.mk0
             |> fun m => updateA m stream_id st2 }

/-- `on_handshake_completed` (lines 242-250): set `connected_ = true`. -/
def QuicClient.on_handshake_completed (c : QuicClient) : QuicClient :=
  { c with connected := true }

/-- `stream_close_cb` (lines 779-793): mark the stream closed when present. -/
def QuicClient.on_stream_close (c : QuicClient) (stream_id : Int) :
    QuicClient :=
  match lookupA c.streams stream_id with
  | none => c
  | some st =>
      { c with streams := updateA c.streams stream_id { st with closed := true } }

/-- End of `run_loop` (lines 500-503): `running_ = false`, with any fatal
error already recorded by `setError`. -/
def QuicClient.on_loop_exit (c : QuicClient) (err : String) : QuicClient :=
  if err = "" then { c with running := false }
  else { c with running := false, last_error_str := err }

/-- Apply one worker event. -/
def workerStep (c : QuicClient) (e : WorkerEvent) : QuicClient :=
  match e with
  | .recvStreamData sid data fin => c.on_recv_stream_data sid data fin
  | .handshakeCompleted => c.on_handshake_completed
  | .streamClose sid => c.on_stream_close sid
  | .loopExit err => c.on_loop_exit err

/-! ### CA trust resolution in `init_tls` -/

/-- Boolean substring test on strings. -/
def strContains (s pat : String) : Bool := decide (pat.data <:+: s.data)

/-- `getenv` result mapped to the `file_arg` / `path_arg` of `init_tls`:
unset or empty becomes null. -/
def envArg (v : Option String) : Option String :=
  match v with
  | none => none
  | some s => if s = "" then none else some s

/-- The CA-loading tail of `QuicClient::init_tls` (lines 351-373).
`caFile`/`caPath` are the `MQTT_QUIC_CA_FILE`/`MQTT_QUIC_CA_PATH`
environment values; the three Booleans are the results of
`wolfSSL_CTX_load_verify_locations`,
`wolfSSL_CTX_set_default_verify_paths` and
`wolfSSL_CTX_load_system_CA_certs`.  Returns `none` on success or the
`setError` message on failure. -/
def init_tls_ca (caFile caPath : Option String)
    (loadLocationsOk defaultPathsOk systemCertsOk : Bool) : Option String :=
  if (envArg caFile).isSome || (envArg caPath).isSome then
    if loadLocationsOk then none
    else some "Failed to load CA bundle from MQTT_QUIC_CA_FILE/CA_PATH"
  else if defaultPathsOk then none
  else if systemCertsOk then none
  else some "No CA bundle available for TLS verification"

/-! ### Poll timeout -/

/-- `NGTCP2_MILLISECONDS` in nanoseconds. -/
def NGTCP2_MILLISECONDS : Nat := 1000000

/-- `QuicClient::compute_timeout_ms` (lines 505-519), as a function of
whether `conn_` is initialized, the engine's `ngtcp2_conn_get_expiry`, and
`now_ts()` (both in nanoseconds). -/
def compute_timeout_ms (conn_init : Bool) (expiry now : Nat) : Int :=
  if !conn_init then 100
  else if expiry ≤ now then 0
  else
    let delta_ms := (expiry - now) / NGTCP2_MILLISECONDS
    if delta_ms > 1000 then 1000 else (delta_ms : Int)

/-! ### Egress loop (`send_pending_packets`) -/

/-- The selection at the top of each iteration (lines 567-584): the first
map entry, when its deque is nonempty, supplies `stream_id` and the head
chunk; otherwise `stream_id` stays -1 and no stream data is offered. -/
def selectHead (out : List (Int × List OutgoingChunk)) :
    Option (Int × OutgoingChunk) :=
  match out with
  | [] => none
  | (sid, q) :: _ =>
      match q with
      | [] => none
      | ch :: _ => some (sid, ch)

/-- The `stream_id` value after the selection. -/
def selStreamId (out : List (Int × List OutgoingChunk)) : Int :=
  match selectHead out with
  | some (sid, _) => sid
  | none => -1

/-- Advance the head chunk's cursor by `n` and pop it when the cursor
reaches or passes the end (`offset >= data.size()` → `pop_front`). -/
def advanceHead (q : List OutgoingChunk) (n : Nat) : List OutgoingChunk :=
  match q with
  | [] => []
  | ch :: rest =>
      if ch.offset + n ≥ ch.data.length then rest
      else { ch with offset := ch.offset + n } :: rest

/-- The advance performed under `out_mutex_` (lines 602-609 and 619-628):
`outgoing_.find(stream_id)`; when found with a nonempty deque, advance its
head cursor by `wdatalen`. -/
def advanceOutgoing (out : List (Int × List OutgoingChunk)) (sid : Int)
    (n : Nat) : List (Int × List OutgoingChunk) :=
  match out with
  | [] => []
  | (k, q) :: rest =>
      if sid = k then (k, advanceHead q n) :: rest
      else (k, q) :: advanceOutgoing rest sid n

/-- What `ngtcp2_conn_writev_stream` returned this iteration:
`NGTCP2_ERR_WRITE_MORE` with the accepted `wdatalen`; another negative
code (an engine error); zero; or a positive packet length `nwrite`
together with `wdatalen`. -/
inductive WriteRes where
  | writeMore (wdatalen : Nat)
  | engineErr (msg : String)
  | done
  | pkt (nwrite : Nat) (wdatalen : Nat)
deriving Repr, DecidableEq

/-- State threaded through the egress loop: the `outgoing_` table, the
datagram lengths handed to `send(2)` in order, and the error string. -/
structure EgressState where
  out : List (Int × List OutgoingChunk)
  sent : List Nat
  err : String
deriving Repr, DecidableEq

/-- One iteration of the `for (;;)` loop in `send_pending_packets`
(lines 567-635), driven by the engine's result.  `none` means the loop
continues; `some k` means the function returns `k`. -/
def send_pending_step (s : EgressState) (r : WriteRes) :
    Option Int × EgressState :=
  let sid := selStreamId s.out
  match r with
  | .writeMore w => (none, { s with out := advanceOutgoing s.out sid w })
  | .engineErr m => (some (-1), { s with err := m })
  | .done => (some 0, s)
  | .pkt n w =>
      let out1 := if w > 0 then advanceOutgoing s.out sid w else s.out
      (none, { s with out := out1, sent := s.sent ++ [n] })

/-- The egress loop folded over a finite trace of engine results (the real
loop runs until the engine yields zero or an error; a trace that ends
without either is given the result 0 vacuously). -/
def send_pending_loop (s : EgressState) : List WriteRes → Int × EgressState
  | [] => (0, s)
  | r :: rest =>
      match send_pending_step s r with
      | (some k, s1) => (k, s1)
      | (none, s1) => send_pending_loop s1 rest

/-! ### JNI registry layer -/

/-- The process-wide `connections` map from handle to client. -/
def Registry := List (Int × QuicClient)

/-- `nativeWriteStream` (lines 913-929): absent handle → -1; empty array →
0 without touching the client; otherwise `write_stream(..., false)`. -/
def nativeWriteStream (reg : List (Int × QuicClient)) (h stream_id : Int)
    (data : List Nat) : Int × List (Int × QuicClient) :=
  match lookupA reg h with
  | none => (-1, reg)
  | some c =>
      if data.length = 0 then (0, reg)
      else
        let rc := c.write_stream stream_id data false
        (rc.1, updateA reg h rc.2)

/-- `nativeReadStream` (lines 931-947): absent handle → null; otherwise
`read_stream` with an 8192-byte buffer, returning an empty array when it
yields no bytes. -/
def nativeReadStream (reg : List (Int × QuicClient)) (h stream_id : Int) :
    Option (List Nat) × List (Int × QuicClient) :=
  match lookupA reg h with
  | none => (none, reg)
  | some c =>
      let rc := c.read_stream stream_id 8192
      (some rc.1, updateA reg h rc.2)

/-- `nativeClose` (lines 949-959): absent handle → no-op; otherwise
`close()` the client and erase the handle from the map. -/
def nativeClose (reg : List (Int × QuicClient)) (h : Int) :
    List (Int × QuicClient) :=
  match lookupA reg h with
  | none => reg
  | some _ => eraseA reg h

/-- `nativeIsConnected` (lines 961-970): false for an absent handle. -/
def nativeIsConnected (reg : List (Int × QuicClient)) (h : Int) : Bool :=
  match lookupA reg h with
  | none => false
  | some c => c.is_connected

/-! ### Operation sequences on one client (for the error-state claims) -/

/-- A public facade operation together with the oracle answers it
consumes. -/
inductive OpCode where
  | opConnect (env : ConnectEnv)
  | opOpenStream (engine : OpenRes)
  | opWriteStream (stream_id : Int) (data : List Nat)
  | opReadStream (stream_id : Int)
  | opCloseStream (stream_id : Int) (engine : EngineCallRes)
deriving Repr, DecidableEq

/-- Run one facade operation: integer result (`read_stream` reports the
byte count, never -1), next state, and the shutdown call it emitted, if
any. -/
def stepOp (c : QuicClient) (op : OpCode) :
    Int × QuicClient × Option ShutdownCall :=
  match op with
  | .opConnect env =>
      let rc := c.connect env
      (rc.1, rc.2, none)
  | .opOpenStream engine =>
      let rc := c.open_stream engine
      (rc.1, rc.2, none)
  | .opWriteStream sid data =>
      let rc := c.write_stream sid data false
      (rc.1, rc.2, none)
  | .opReadStream sid =>
      let rc := c.read_stream sid 8192
      ((rc.1.length : Int), rc.2, none)
  | .opCloseStream sid engine =>
      let rc := c.close_stream sid engine
      (rc.1, rc.2.1, rc.2.2)

/-- Run a sequence of operations, keeping the result of the last one. -/
def runOps (c : QuicClient) : List OpCode → Int × QuicClient
  | [] => (0, c)
  | [op] =>
      let rc := stepOp c op
      (rc.1, rc.2.1)
  | op :: rest => runOps (stepOp c op).2.1 rest

/-- The external error strings an operation can feed into `setError` are
nonempty (true of `ngtcp2_strerror` and of every literal in the source). -/
def opMsgsOk (op : OpCode) : Bool :=
  match op with
  | .opConnect env =>
      (match env.initSocket with | .fail m => m ≠ "" | .ok => true) &&
      (match env.initTls with | .fail m => m ≠ "" | .ok => true) &&
      (match env.initQuic with | .fail m => m ≠ "" | .ok => true) &&
      (match env.initPipe with | .fail m => m ≠ "" | .ok => true)
  | .opOpenStream (.err m) => m ≠ ""
  | .opCloseStream _ (.err m) => m ≠ ""
  | _ => true

/-! ## Association-list lemmas -/

theorem lookupA_forall_ne {α : Type} (m : List (Int × α)) (k : Int)
    (h : ∀ p ∈ m, k ≠ p.1) : lookupA m k = none := by
  induction m with
  | nil => rfl
  | cons p rest ih =>
      have hk : k ≠ p.1 := h p (List.mem_cons_self p rest)
      obtain ⟨k', v⟩ := p
      simp only [lookupA, if_neg hk]
      exact ih fun q hq => h q (List.mem_cons_of_mem _ hq)

theorem lookupA_updateA_self {α : Type} (m : List (Int × α)) (k : Int)
    (v w : α) (h : lookupA m k = some w) :
    lookupA (updateA m k v) k = some v := by
  induction m with
  | nil => simp [lookupA] at h
  | cons p rest ih =>
      obtain ⟨k', v'⟩ := p
      by_cases hk : k = k'
      · simp [lookupA, updateA, hk]
      · simp only [lookupA, updateA, if_neg hk] at h ⊢
        exact ih h

theorem updateA_self {α : Type} (m : List (Int × α)) (k : Int) (v : α)
    (h : lookupA m k = some v) : updateA m k v = m := by
  induction m with
  | nil => rfl
  | cons p rest ih =>
      obtain ⟨k', v'⟩ := p
      by_cases hk : k = k'
      · simp only [lookupA, if_pos hk, Option.some_inj] at h
        simp [updateA, hk, h]
      · simp only [lookupA, if_neg hk] at h
        simp [updateA, hk, ih h]

theorem lookupA_eraseA {α : Type} (m : List (Int × α)) (k : Int)
    (h : (m.map Prod.fst).Nodup) : lookupA (eraseA m k) k = none := by
  induction m with
  | nil => rfl
  | cons p rest ih =>
      obtain ⟨k', v⟩ := p
      simp only [List.map_cons, List.nodup_cons] at h
      by_cases hk : k = k'
      · simp only [eraseA, if_pos hk]
        apply lookupA_forall_ne
        intro q hq hqk
        exact h.1 (hk ▸ hqk ▸ List.mem_map_of_mem Prod.fst hq)
      · simp only [eraseA, if_neg hk, lookupA, if_neg hk]
        exact ih h.2

theorem lookupA_pushChunk (m : List (Int × List OutgoingChunk)) (k : Int)
    (ch : OutgoingChunk)
    (hs : List.Pairwise (fun a b => a.1 < b.1) m) :
    lookupA (pushChunk m k ch) k =
      some ((lookupA m k).getD [] ++ [ch]) := by
  induction m with
  | nil => simp [pushChunk, lookupA]
  | cons p rest ih =>
      obtain ⟨k', q⟩ := p
      rw [List.pairwise_cons] at hs
      by_cases hlt : k < k'
      · have hnone : lookupA ((k', q) :: rest) k = none := by
          apply lookupA_forall_ne
          intro p hp
          rcases List.mem_cons.mp hp with hh | ht
          · rw [hh]; exact ne_of_lt hlt
          · exact ne_of_lt (lt_trans hlt (hs.1 p ht))
        simp only [lookupA] at hnone
        simp [pushChunk, if_pos hlt, lookupA, hnone]
      · by_cases heq : k = k'
        · simp [pushChunk, if_neg hlt, if_pos heq, lookupA, heq]
        · simp only [pushChunk, if_neg hlt, if_neg heq, lookupA]
          exact ih hs.2

/-! ## Claim theorems -/

/-- **C8.** The poll timeout computed by the event loop equals
`expiry - now` converted to milliseconds and clamped to `[0, 1000]`: it is
0 when the expiry is not after `now`, 1000 when the difference exceeds
1000 ms, and for every input (including an uninitialized connection,
where the code returns the constant 100) it is never negative and never
exceeds 1000. -/
theorem compute_timeout_ms_spec :
    (∀ expiry now : Nat,
        compute_timeout_ms true expiry now =
          ((min ((expiry - now) / NGTCP2_MILLISECONDS) 1000 : Nat) : Int)) ∧
    (∀ expiry now : Nat, expiry ≤ now →
        compute_timeout_ms true expiry now = 0) ∧
    (∀ expiry now : Nat, 1000 * NGTCP2_MILLISECONDS < expiry - now →
        compute_timeout_ms true expiry now = 1000) ∧
    (∀ (b : Bool) (expiry now : Nat),
        0 ≤ compute_timeout_ms b expiry now ∧
        compute_timeout_ms b expiry now ≤ 1000) := by
  have hmain : ∀ expiry now : Nat,
      compute_timeout_ms true expiry now =
        ((min ((expiry - now) / NGTCP2_MILLISECONDS) 1000 : Nat) : Int) := by
    intro expiry now
    by_cases hle : expiry ≤ now
    · have h0 : expiry - now = 0 := Nat.sub_eq_zero_of_le hle
      simp [compute_timeout_ms, hle, h0, NGTCP2_MILLISECONDS]
    · by_cases hgt : 1000 < (expiry - now) / NGTCP2_MILLISECONDS
      · have : min ((expiry - now) / NGTCP2_MILLISECONDS) 1000 = 1000 :=
          Nat.min_eq_right (le_of_lt hgt)
        simp [compute_timeout_ms, hle, hgt, this]
      · push_neg at hgt
        have : min ((expiry - now) / NGTCP2_MILLISECONDS) 1000 =
            (expiry - now) / NGTCP2_MILLISECONDS := Nat.min_eq_left hgt
        simp [compute_timeout_ms, hle, Nat.not_lt.mpr hgt, this]
  refine ⟨hmain, ?_, ?_, ?_⟩
  · intro expiry now hle
    have h0 : expiry - now = 0 := Nat.sub_eq_zero_of_le hle
    rw [hmain expiry now, h0]
    simp
  · intro expiry now hgt
    rw [hmain expiry now]
    have h1000 : 1000 ≤ (expiry - now) / NGTCP2_MILLISECONDS := by
      have hpos : 0 < NGTCP2_MILLISECONDS := by decide
      exact (Nat.le_div_iff_mul_le hpos).mpr (le_of_lt hgt)
    rw [Nat.min_eq_right h1000]
    rfl
  · intro b expiry now
    cases b with
    | false => constructor <;> simp [compute_timeout_ms]
    | true =>
        rw [hmain expiry now]
        constructor
        · exact Int.natCast_nonneg _
        · have : min ((expiry - now) / NGTCP2_MILLISECONDS) 1000 ≤ 1000 :=
            Nat.min_le_right _ _
          exact_mod_cast this

/-- Witness for C8 at concrete inputs. -/
theorem compute_timeout_ms_spec_witness :
    compute_timeout_ms true 5000000 2000000 =
      ((min ((5000000 - 2000000) / NGTCP2_MILLISECONDS) 1000 : Nat) : Int) ∧
    compute_timeout_ms true 2 5 = 0 ∧
    compute_timeout_ms true 2000000001 0 = 1000 ∧
    compute_timeout_ms false 7 9 ≤ 1000 :=
  ⟨compute_timeout_ms_spec.1 5000000 2000000,
   compute_timeout_ms_spec.2.1 2 5 (by decide),
   compute_timeout_ms_spec.2.2.1 2000000001 0 (by decide),
   (compute_timeout_ms_spec.2.2.2 false 7 9).2⟩

/-- **C9.** `connect` on a client whose `connected_` flag is already true
returns 0 immediately with a completely unchanged state: no
re-initialization, no worker spawn, and `last_error_str_` untouched. -/
theorem connect_when_already_connected (c : QuicClient) (env : ConnectEnv)
    (h : c.connected = true) : c.connect env = (0, c) := by
  simp [QuicClient.connect, h]

/-- Witness for C9. -/
theorem connect_when_already_connected_witness :
    ({ freshClient "example.com" "" 4433 with connected := true } :
        QuicClient).connect
      ⟨InitStep.ok, InitStep.ok, InitStep.ok, InitStep.ok,
       WaitOutcome.timedOut⟩ =
    (0, { freshClient "example.com" "" 4433 with connected := true }) :=
  connect_when_already_connected _ _ rfl

/-- **C10.** With `conn_` uninitialized, `close_stream` returns 0 and
changes nothing (and makes no engine call), while `open_stream` and
`write_stream` return -1 with `last_error` set to
"QUIC connection not initialized". -/
theorem conn_uninitialized_ops (c : QuicClient) (sid : Int)
    (data : List Nat) (fin : Bool) (engS : EngineCallRes) (engO : OpenRes)
    (h : c.conn_init = false) :
    c.close_stream sid engS = (0, c, none) ∧
    c.open_stream engO =
      (-1, c.setErr "QUIC connection not initialized") ∧
    c.write_stream sid data fin =
      (-1, c.setErr "QUIC connection not initialized") ∧
    (c.setErr "QUIC connection not initialized").last_error =
      "QUIC connection not initialized" := by
  refine ⟨?_, ?_, ?_, rfl⟩
  · simp [QuicClient.close_stream, h]
  · simp [QuicClient.open_stream, h]
  · simp [QuicClient.write_stream, h]

/-- **C2.** `read_stream` returns up to 8192 bytes that are exactly a
prefix of the stream's receive buffer in FIFO order (the full buffer when
it holds at most 8192 bytes) and removes exactly the returned bytes; an
absent stream id yields an empty byte array and changes nothing.  The JNI
entry `nativeReadStream` passes the 8192-byte buffer. -/
theorem read_stream_spec (c : QuicClient) (sid : Int) :
    (∀ st : StreamState, lookupA c.streams sid = some st →
        (c.read_stream sid 8192).1 =
          st.recv_buf.take (min 8192 st.recv_buf.length) ∧
        (c.read_stream sid 8192).1 <+: st.recv_buf ∧
        (c.read_stream sid 8192).1.length ≤ 8192 ∧
        (st.recv_buf.length ≤ 8192 →
            (c.read_stream sid 8192).1 = st.recv_buf) ∧
        lookupA ((c.read_stream sid 8192).2).streams sid =
          some { st with
                   recv_buf :=
                     st.recv_buf.drop (c.read_stream sid 8192).1.length } ∧
        (c.read_stream sid 8192).1 ++
            st.recv_buf.drop (c.read_stream sid 8192).1.length =
          st.recv_buf) ∧
    (lookupA c.streams sid = none → c.read_stream sid 8192 = ([], c)) ∧
    (∀ (reg : List (Int × QuicClient)) (h : Int), lookupA reg h = some c →
        (nativeReadStream reg h sid).1 = some (c.read_stream sid 8192).1) := by
  refine ⟨?_, ?_, ?_⟩
  · intro st hst
    have h1 : (c.read_stream sid 8192).1 =
        st.recv_buf.take (min 8192 st.recv_buf.length) := by
      simp [QuicClient.read_stream, hst]
    have h2 : ((c.read_stream sid 8192).2).streams =
        updateA c.streams sid
          ⟨st.recv_buf.drop (min 8192 st.recv_buf.length),
           st.fin_received, st.closed⟩ := by
      simp [QuicClient.read_stream, hst]
    have hlen : (c.read_stream sid 8192).1.length =
        min 8192 st.recv_buf.length := by
      rw [h1, List.length_take]
      exact Nat.min_eq_left (Nat.min_le_right _ _)
    refine ⟨h1, ?_, ?_, ?_, ?_, ?_⟩
    · rw [h1]; exact List.take_prefix _ _
    · rw [hlen]; exact Nat.min_le_left _ _
    · intro hsmall
      rw [h1, Nat.min_eq_right hsmall, List.take_length]
    · rw [h2, hlen]
      exact lookupA_updateA_self _ _ _ _ hst
    · rw [h1, List.length_take, Nat.min_eq_left (Nat.min_le_right _ _)]
      exact List.take_append_drop _ _
  · intro hst
    simp [QuicClient.read_stream, hst]
  · intro reg h hc
    simp [nativeReadStream, hc]

/-- Witness for C2 at a concrete client holding one stream. -/
theorem read_stream_spec_witness :
    (let c : QuicClient :=
       { freshClient "example.com" "" 4433 with
           streams := [(4, ⟨[10, 20, 30], false, false⟩)] }
     (c.read_stream 4 8192).1 =
       ([10, 20, 30] : List Nat).take
         (min 8192 ([10, 20, 30] : List Nat).length)) ∧
    (let c : QuicClient := freshClient "example.com" "" 4433
     c.read_stream 7 8192 = ([], c)) := by
  constructor
  · exact ((read_stream_spec _ 4).1 ⟨[10, 20, 30], false, false⟩ (by decide)).1
  · exact (read_stream_spec _ 7).2.1 (by decide)

/-- **C5.** After `connect` returns 0 the client reports connected, the
flag survives every facade operation and every worker-side event (in
particular it stays true while the worker runs), and once `nativeClose`
has been called on a handle, `nativeIsConnected` on that handle is
false. -/
theorem is_connected_lifecycle :
    (∀ (c : QuicClient) (env : ConnectEnv),
        (c.connect env).1 = 0 → ((c.connect env).2).is_connected = true) ∧
    (∀ (c : QuicClient) (op : OpCode), c.connected = true →
        ((stepOp c op).2.1).is_connected = true) ∧
    (∀ (c : QuicClient) (e : WorkerEvent), c.connected = true →
        (workerStep c e).is_connected = true) ∧
    (∀ (reg : List (Int × QuicClient)) (h : Int),
        (reg.map Prod.fst).Nodup →
        nativeIsConnected (nativeClose reg h) h = false) := by
  refine ⟨?_, ?_, ?_, ?_⟩
  · intro c env h
    rcases env with ⟨s, t, q, p, w⟩
    by_cases hc : c.connected = true
    · simp [QuicClient.connect, hc, QuicClient.is_connected]
    · rw [Bool.not_eq_true] at hc
      cases s with
      | fail m => simp [QuicClient.connect, hc] at h
      | ok =>
      cases t with
      | fail m => simp [QuicClient.connect, hc] at h
      | ok =>
      cases q with
      | fail m => simp [QuicClient.connect, hc] at h
      | ok =>
      cases p with
      | fail m => simp [QuicClient.connect, hc] at h
      | ok =>
      cases w with
      | timedOut => simp [QuicClient.connect, hc] at h
      | completed conn run loopErr =>
          cases conn with
          | true => simp [QuicClient.connect, hc, QuicClient.is_connected]
          | false =>
              by_cases hl : loopErr = "" <;>
                simp [QuicClient.connect, hc, hl] at h
  · intro c op hc
    cases op with
    | opConnect env =>
        simp [stepOp, QuicClient.connect, hc, QuicClient.is_connected]
    | opOpenStream eng =>
        cases eng <;> by_cases hci : c.conn_init <;>
          simp [stepOp, QuicClient.open_stream, hci, QuicClient.setErr,
                QuicClient.is_connected, hc]
    | opWriteStream sid data =>
        by_cases hci : c.conn_init <;>
          simp [stepOp, QuicClient.write_stream, hci, QuicClient.setErr,
                QuicClient.is_connected, hc]
    | opReadStream sid =>
        cases hl : lookupA c.streams sid <;>
          simp [stepOp, QuicClient.read_stream, hl,
                QuicClient.is_connected, hc]
    | opCloseStream sid eng =>
        cases eng <;> by_cases hci : c.conn_init <;>
          simp [stepOp, QuicClient.close_stream, hci, QuicClient.setErr,
                QuicClient.is_connected, hc]
  · intro c e hc
    cases e with
    | recvStreamData sid data fin =>
        cases fin <;>
          simp [workerStep, QuicClient.on_recv_stream_data,
                QuicClient.is_connected, hc]
    | handshakeCompleted =>
        simp [workerStep, QuicClient.on_handshake_completed,
              QuicClient.is_connected]
    | streamClose sid =>
        cases hl : lookupA c.streams sid <;>
          simp [workerStep, QuicClient.on_stream_close, hl,
                QuicClient.is_connected, hc]
    | loopExit err =>
        by_cases he : err = "" <;>
          simp [workerStep, QuicClient.on_loop_exit, he,
                QuicClient.is_connected, hc]
  · intro reg h hnodup
    cases hl : lookupA reg h with
    | none => simp [nativeIsConnected, nativeClose, hl]
    | some c =>
        simp [nativeIsConnected, nativeClose, hl,
              lookupA_eraseA reg h hnodup]

/-- Witness for C5 at concrete inputs. -/
theorem is_connected_lifecycle_witness :
    (((stepOp
        ({ freshClient "example.com" "" 4433 with connected := true } :
          QuicClient)
        (OpCode.opReadStream 0)).2.1).is_connected = true) ∧
    ((workerStep
        ({ freshClient "example.com" "" 4433 with connected := true } :
          QuicClient)
        WorkerEvent.handshakeCompleted).is_connected = true) ∧
    nativeIsConnected
      (nativeClose [(1, freshClient "example.com" "" 4433)] 1) 1 = false :=
  ⟨is_connected_lifecycle.2.1 _ (OpCode.opReadStream 0) rfl,
   is_connected_lifecycle.2.2.1 _ WorkerEvent.handshakeCompleted rfl,
   is_connected_lifecycle.2.2.2 _ 1 (by decide)⟩

/-- **C6 counterexample.** After a failed `write_stream` (connection not
initialized) followed by a successful `read_stream`, the most recent
operation succeeded yet `last_error` is still non-empty: the claimed
"non-empty iff the most recent operation failed" equivalence is false. -/
theorem last_error_iff_failure_counterexample :
    ((runOps (freshClient "example.com" "" 4433)
        [OpCode.opWriteStream 0 [1], OpCode.opReadStream 0]).1 ≠ -1) ∧
    ((runOps (freshClient "example.com" "" 4433)
        [OpCode.opWriteStream 0 [1],
         OpCode.opReadStream 0]).2.last_error ≠ "") := by decide

/-- **C6 amended.** A failing operation always leaves `last_error`
non-empty (given the engine's error strings are non-empty); the converse
fails because successful operations other than `connect` do not clear the
stored error. -/
theorem failed_op_sets_last_error (c : QuicClient) (op : OpCode)
    (hmsg : opMsgsOk op = true) (hfail : (stepOp c op).1 = -1) :
    ((stepOp c op).2.1).last_error ≠ "" := by
  cases op with
  | opConnect env =>
      rcases env with ⟨s, t, q, p, w⟩
      by_cases hc : c.connected = true
      · simp [stepOp, QuicClient.connect, hc] at hfail
      · rw [Bool.not_eq_true] at hc
        simp only [opMsgsOk, Bool.and_eq_true, decide_eq_true_eq] at hmsg
        cases s with
        | fail m =>
            simpa [stepOp, QuicClient.connect, hc, QuicClient.setErr,
                   QuicClient.last_error] using hmsg.1.1.1
        | ok =>
        cases t with
        | fail m =>
            simpa [stepOp, QuicClient.connect, hc, QuicClient.setErr,
                   QuicClient.last_error] using hmsg.1.1.2
        | ok =>
        cases q with
        | fail m =>
            simpa [stepOp, QuicClient.connect, hc, QuicClient.setErr,
                   QuicClient.last_error] using hmsg.1.2
        | ok =>
        cases p with
        | fail m =>
            simpa [stepOp, QuicClient.connect, hc, QuicClient.setErr,
                   QuicClient.last_error] using hmsg.2
        | ok =>
        cases w with
        | timedOut =>
            simp [stepOp, QuicClient.connect, hc, QuicClient.setErr,
                  QuicClient.last_error]
        | completed conn run loopErr =>
            cases conn with
            | true => simp [stepOp, QuicClient.connect, hc] at hfail
            | false =>
                by_cases hl : loopErr = "" <;>
                  simp [stepOp, QuicClient.connect, hc, hl,
                        QuicClient.setErr, QuicClient.last_error]
  | opOpenStream eng =>
      by_cases hci : c.conn_init
      · cases eng with
        | ok sid =>
            simp only [stepOp, QuicClient.open_stream, hci,
                       Bool.not_true, Bool.false_eq_true, if_false] at hfail
            have hnn : (0 : Int) ≤ (sid : Int) := Int.natCast_nonneg sid
            omega
        | err m =>
            simp only [opMsgsOk, decide_eq_true_eq] at hmsg
            simpa [stepOp, QuicClient.open_stream, hci, QuicClient.setErr,
                   QuicClient.last_error] using hmsg
      · have hci' : c.conn_init = false := by simpa using hci
        simp [stepOp, QuicClient.open_stream, hci', QuicClient.setErr,
              QuicClient.last_error]
  | opWriteStream sid data =>
      by_cases hci : c.conn_init
      · simp [stepOp, QuicClient.write_stream, hci] at hfail
      · have hci' : c.conn_init = false := by simpa using hci
        simp [stepOp, QuicClient.write_stream, hci', QuicClient.setErr,
              QuicClient.last_error]
  | opReadStream sid =>
      have hnn : (0 : Int) ≤ ((c.read_stream sid 8192).1.length : Int) :=
        Int.natCast_nonneg _
      simp only [stepOp] at hfail
      omega
  | opCloseStream sid eng =>
      by_cases hci : c.conn_init
      · cases eng with
        | ok => simp [stepOp, QuicClient.close_stream, hci] at hfail
        | err m =>
            simp only [opMsgsOk, decide_eq_true_eq] at hmsg
            simpa [stepOp, QuicClient.close_stream, hci, QuicClient.setErr,
                   QuicClient.last_error] using hmsg
      · have hci' : c.conn_init = false := by simpa using hci
        simp [stepOp, QuicClient.close_stream, hci'] at hfail

/-- Witness for C6's amended theorem. -/
theorem failed_op_sets_last_error_witness :
    ((stepOp (freshClient "example.com" "" 4433)
        (OpCode.opWriteStream 0 [1])).2.1).last_error ≠ "" :=
  failed_op_sets_last_error _ _ (by decide) (by decide)

/-- **C1.** `connect` waits (up to the 15-second cap) for
`connected ∨ ¬running`; it returns 0 exactly when `connected` became
true; a condition-variable timeout yields -1 with
"QUIC handshake timed out"; a wake with `connected` still false yields
-1 with the propagated engine error, or "QUIC handshake failed" when
none was recorded. -/
theorem connect_sync_spec :
    handshake_wait_seconds = 15 ∧
    (∀ (c : QuicClient) (env : ConnectEnv),
        ((c.connect env).1 = 0 ↔ ((c.connect env).2).connected = true)) ∧
    (∀ (c : QuicClient) (env : ConnectEnv),
        c.connected = false →
        env.initSocket = InitStep.ok → env.initTls = InitStep.ok →
        env.initQuic = InitStep.ok → env.initPipe = InitStep.ok →
        ((env.wait = WaitOutcome.timedOut →
            (c.connect env).1 = -1 ∧
            ((c.connect env).2).last_error = "QUIC handshake timed out" ∧
            strContains ((c.connect env).2).last_error
              "handshake timed out" = true) ∧
         (∀ run loopErr, env.wait = WaitOutcome.completed false run loopErr →
            (c.connect env).1 = -1 ∧
            ((c.connect env).2).last_error =
              (if loopErr = "" then "QUIC handshake failed" else loopErr) ∧
            (loopErr = "" →
              strContains ((c.connect env).2).last_error
                "handshake failed" = true)))) := by
  refine ⟨rfl, ?_, ?_⟩
  · intro c env
    rcases env with ⟨s, t, q, p, w⟩
    by_cases hc : c.connected = true
    · simp [QuicClient.connect, hc]
    · rw [Bool.not_eq_true] at hc
      cases s with
      | fail m => simp [QuicClient.connect, hc, QuicClient.setErr]
      | ok =>
      cases t with
      | fail m => simp [QuicClient.connect, hc, QuicClient.setErr]
      | ok =>
      cases q with
      | fail m => simp [QuicClient.connect, hc, QuicClient.setErr]
      | ok =>
      cases p with
      | fail m => simp [QuicClient.connect, hc, QuicClient.setErr]
      | ok =>
      cases w with
      | timedOut => simp [QuicClient.connect, hc, QuicClient.setErr]
      | completed conn run loopErr =>
          cases conn with
          | true => simp [QuicClient.connect, hc]
          | false =>
              by_cases hl : loopErr = "" <;>
                simp [QuicClient.connect, hc, hl, QuicClient.setErr]
  · intro c env hc hs ht hq hp
    rcases env with ⟨s, t, q, p, w⟩
    cases hs; cases ht; cases hq; cases hp
    constructor
    · intro hw
      cases hw
      refine ⟨?_, ?_, ?_⟩
      · simp [QuicClient.connect, hc, QuicClient.setErr]
      · simp [QuicClient.connect, hc, QuicClient.setErr,
              QuicClient.last_error]
      · simp only [QuicClient.connect, hc, QuicClient.setErr,
                   QuicClient.last_error, Bool.false_eq_true, if_false]
        decide
    · intro run loopErr hw
      cases hw
      by_cases hl : loopErr = ""
      · have herr : ((c.connect ⟨InitStep.ok, InitStep.ok, InitStep.ok,
            InitStep.ok, WaitOutcome.completed false run loopErr⟩).2).last_error =
            "QUIC handshake failed" := by
          simp [QuicClient.connect, hc, hl, QuicClient.setErr,
                QuicClient.last_error]
        refine ⟨?_, ?_, ?_⟩
        · simp [QuicClient.connect, hc, hl, QuicClient.setErr]
        · rw [herr]
          simp [hl]
        · intro h0
          rw [herr]
          decide
      · refine ⟨?_, ?_, ?_⟩ <;>
          simp [QuicClient.connect, hc, hl, QuicClient.setErr,
                QuicClient.last_error]

/-- Witness for C1 at concrete inputs: a condition-variable timeout. -/
theorem connect_sync_spec_witness :
    ((freshClient "example.com" "" 4433).connect
        ⟨InitStep.ok, InitStep.ok, InitStep.ok, InitStep.ok,
         WaitOutcome.timedOut⟩).1 = -1 ∧
    (((freshClient "example.com" "" 4433).connect
        ⟨InitStep.ok, InitStep.ok, InitStep.ok, InitStep.ok,
         WaitOutcome.timedOut⟩).2).last_error =
      "QUIC handshake timed out" := by
  have h := (connect_sync_spec.2.2 (freshClient "example.com" "" 4433)
      ⟨InitStep.ok, InitStep.ok, InitStep.ok, InitStep.ok,
       WaitOutcome.timedOut⟩ rfl rfl rfl rfl rfl).1 rfl
  exact ⟨h.1, h.2.1⟩

/-- **C3.** One egress iteration: on the "write more" signal the selected
stream's head chunk cursor advances by `wdatalen` and no datagram is
emitted; on a positive packet length the datagram is recorded as sent and
the cursor advances by `wdatalen` equivalently (advancing by 0 is a
no-op while the head chunk is not yet drained); a chunk is popped exactly
when its cursor reaches or passes the end of its bytes; and the loop
returns 0 as soon as the engine returns zero. -/
theorem send_pending_packets_spec :
    (∀ (s : EgressState) (w : Nat),
        send_pending_step s (WriteRes.writeMore w) =
          (none,
           { s with out := advanceOutgoing s.out (selStreamId s.out) w })) ∧
    (∀ (s : EgressState) (n w : Nat), 0 < w →
        send_pending_step s (WriteRes.pkt n w) =
          (none,
           { s with out := advanceOutgoing s.out (selStreamId s.out) w,
                    sent := s.sent ++ [n] })) ∧
    (∀ (s : EgressState) (n : Nat) (sid : Int) (ch : OutgoingChunk),
        selectHead s.out = some (sid, ch) → ch.offset < ch.data.length →
        advanceOutgoing s.out (selStreamId s.out) 0 = s.out ∧
        send_pending_step s (WriteRes.pkt n 0) =
          (none, { s with sent := s.sent ++ [n] })) ∧
    (∀ (ch : OutgoingChunk) (rest : List OutgoingChunk) (n : Nat),
        advanceHead (ch :: rest) n = rest ↔
          ch.data.length ≤ ch.offset + n) ∧
    (∀ (s : EgressState) (tr : List WriteRes),
        send_pending_loop s (WriteRes.done :: tr) = (0, s)) := by
  refine ⟨?_, ?_, ?_, ?_, ?_⟩
  · intro s w
    rfl
  · intro s n w hw
    simp [send_pending_step, hw]
  · intro s n sid ch hsel hlt
    have hzero : advanceOutgoing s.out (selStreamId s.out) 0 = s.out := by
      cases hout : s.out with
      | nil => simp [advanceOutgoing]
      | cons p rest =>
          obtain ⟨k, qd⟩ := p
          cases qd with
          | nil => rw [hout] at hsel; simp [selectHead] at hsel
          | cons ch0 qtail =>
              rw [hout] at hsel
              simp only [selectHead, Option.some_inj, Prod.mk.injEq] at hsel
              obtain ⟨hks, hch⟩ := hsel
              subst hch
              have hne : ¬ ch0.data.length ≤ ch0.offset + 0 := by omega
              have hsk : selStreamId ((k, ch0 :: qtail) :: rest) = k := by
                simp [selStreamId, selectHead]
              rw [hsk]
              simp only [advanceOutgoing, if_pos rfl]
              rw [advanceHead, if_neg hne]
              cases ch0
              simp
    refine ⟨hzero, ?_⟩
    simp [send_pending_step]
  · intro ch rest n
    constructor
    · intro h
      by_contra hlt
      rw [Nat.not_le] at hlt
      have hne : ¬ ch.data.length ≤ ch.offset + n := Nat.not_le.mpr hlt
      rw [advanceHead, if_neg hne] at h
      have := congrArg List.length h
      simp at this
    · intro h
      rw [advanceHead, if_pos h]
  · intro s tr
    rfl

/-- Witness for C3 at a concrete egress state. -/
theorem send_pending_packets_spec_witness :
    (send_pending_step ⟨[(5, [⟨[1, 2, 3], 0, false⟩])], [], ""⟩
        (WriteRes.pkt 40 2) =
      (none,
       { (⟨[(5, [⟨[1, 2, 3], 0, false⟩])], [], ""⟩ : EgressState) with
           out := advanceOutgoing [(5, [⟨[1, 2, 3], 0, false⟩])]
                    (selStreamId [(5, [⟨[1, 2, 3], 0, false⟩])]) 2,
           sent := [] ++ [40] })) ∧
    (advanceHead [⟨[1, 2, 3], (0 : Nat), false⟩] 3 = []) ∧
    (advanceOutgoing [(5, [⟨[1, 2, 3], 0, false⟩])]
        (selStreamId [(5, [⟨[1, 2, 3], 0, false⟩])]) 0 =
      [(5, [⟨[1, 2, 3], 0, false⟩])]) := by
  refine ⟨?_, ?_, ?_⟩
  · exact send_pending_packets_spec.2.1 _ 40 2 (by decide)
  · exact (send_pending_packets_spec.2.2.2.1 ⟨[1, 2, 3], 0, false⟩ [] 3).mpr
      (by decide)
  · exact (send_pending_packets_spec.2.2.1
      ⟨[(5, [⟨[1, 2, 3], 0, false⟩])], [], ""⟩ 1 5 ⟨[1, 2, 3], 0, false⟩
      (by decide) (by decide)).1

/-- **C4.** CA trust precedence in `init_tls`: an explicit
`MQTT_QUIC_CA_FILE`/`MQTT_QUIC_CA_PATH` is consulted first (its failure
is fatal with a "Failed to load CA bundle" message and is never masked by
the fallbacks); without an explicit source the system default paths are
tried, then bundled system roots; with no usable anchor the init fails.
A failing `init_tls` makes `connect` return -1 with that message. -/
theorem ca_trust_precedence :
    (∀ (caFile caPath : Option String) (defOk sysOk : Bool),
        ((envArg caFile).isSome = true ∨ (envArg caPath).isSome = true) →
        init_tls_ca caFile caPath true defOk sysOk = none ∧
        (∃ m, init_tls_ca caFile caPath false defOk sysOk = some m ∧
              strContains m "Failed to load CA bundle" = true)) ∧
    (∀ (caFile caPath : Option String) (loadOk : Bool),
        envArg caFile = none → envArg caPath = none →
        (∀ sysOk, init_tls_ca caFile caPath loadOk true sysOk = none) ∧
        init_tls_ca caFile caPath loadOk false true = none ∧
        init_tls_ca caFile caPath loadOk false false =
          some "No CA bundle available for TLS verification") ∧
    (∀ (c : QuicClient) (env : ConnectEnv) (m : String),
        c.connected = false → env.initSocket = InitStep.ok →
        env.initTls = InitStep.fail m →
        (c.connect env).1 = -1 ∧ ((c.connect env).2).last_error = m) := by
  refine ⟨?_, ?_, ?_⟩
  · intro caFile caPath defOk sysOk hcfg
    have hb : ((envArg caFile).isSome || (envArg caPath).isSome) = true := by
      rcases hcfg with h | h <;> simp [h]
    constructor
    · simp [init_tls_ca, hb]
    · refine ⟨"Failed to load CA bundle from MQTT_QUIC_CA_FILE/CA_PATH",
        ?_, by decide⟩
      simp [init_tls_ca, hb]
  · intro caFile caPath loadOk hfile hpath
    refine ⟨?_, ?_, ?_⟩ <;> simp [init_tls_ca, hfile, hpath]
  · intro c env m hc hs ht
    rcases env with ⟨s, t, q, p, w⟩
    cases hs; cases ht
    constructor <;>
      simp [QuicClient.connect, hc, QuicClient.setErr, QuicClient.last_error]

/-- Witness for C4: explicit CA file configured but unloadable. -/
theorem ca_trust_precedence_witness :
    (∃ m, init_tls_ca (some "/dev/null") none false false false = some m ∧
        strContains m "Failed to load CA bundle" = true) ∧
    ((freshClient "example.com" "" 4433).connect
        ⟨InitStep.ok,
         InitStep.fail
           "Failed to load CA bundle from MQTT_QUIC_CA_FILE/CA_PATH",
         InitStep.ok, InitStep.ok, WaitOutcome.timedOut⟩).1 = -1 := by
  constructor
  · exact (ca_trust_precedence.1 (some "/dev/null") none false false
      (Or.inl (by decide))).2
  · exact (ca_trust_precedence.2.2 (freshClient "example.com" "" 4433)
      ⟨InitStep.ok,
       InitStep.fail
         "Failed to load CA bundle from MQTT_QUIC_CA_FILE/CA_PATH",
       InitStep.ok, InitStep.ok, WaitOutcome.timedOut⟩ _ rfl rfl rfl).1

/-- **C7.** The JNI facade enqueues every `write_stream` chunk with
`fin = false`; among the facade operations only `close_stream` emits a
write-side shutdown, and it does so with flags 0 and application error
code 0, returning 0 on engine success and -1 with `last_error` set on an
engine error. -/
theorem write_stream_no_fin_spec :
    (∀ (reg : List (Int × QuicClient)) (h sid : Int) (data : List Nat)
        (c : QuicClient),
        lookupA reg h = some c → c.conn_init = true → data ≠ [] →
        List.Pairwise (fun a b => a.1 < b.1) c.outgoing →
        (nativeWriteStream reg h sid data).1 = 0 ∧
        (∃ c', lookupA (nativeWriteStream reg h sid data).2 h = some c' ∧
          lookupA c'.outgoing sid =
            some ((lookupA c.outgoing sid).getD [] ++
                  [⟨data, 0, false⟩]))) ∧
    (∀ (c : QuicClient) (op : OpCode), (stepOp c op).2.2 ≠ none →
        ∃ sid eng, op = OpCode.opCloseStream sid eng) ∧
    (∀ (c : QuicClient) (sid : Int) (eng : EngineCallRes),
        c.conn_init = true →
        (c.close_stream sid eng).2.2 = some ⟨0, sid, 0⟩ ∧
        (eng = EngineCallRes.ok →
            c.close_stream sid eng = (0, c, some ⟨0, sid, 0⟩)) ∧
        (∀ m, eng = EngineCallRes.err m →
            (c.close_stream sid eng).1 = -1 ∧
            ((c.close_stream sid eng).2.1).last_error = m)) := by
  refine ⟨?_, ?_, ?_⟩
  · intro reg h sid data c hreg hconn hdata hsort
    have hlen : ¬ data.length = 0 := by
      simpa using hdata
    constructor
    · simp [nativeWriteStream, hreg, hlen, QuicClient.write_stream, hconn]
    · refine ⟨(c.write_stream sid data false).2, ?_, ?_⟩
      · simp only [nativeWriteStream, hreg, if_neg hlen]
        exact lookupA_updateA_self _ _ _ _ hreg
      · simp only [QuicClient.write_stream, hconn, Bool.not_true,
                   Bool.false_eq_true, if_false]
        exact lookupA_pushChunk _ _ _ hsort
  · intro c op hne
    cases op with
    | opConnect env => simp [stepOp] at hne
    | opOpenStream eng => simp [stepOp] at hne
    | opWriteStream sid data => simp [stepOp] at hne
    | opReadStream sid => simp [stepOp] at hne
    | opCloseStream sid eng => exact ⟨sid, eng, rfl⟩
  · intro c sid eng hconn
    cases eng with
    | ok =>
        refine ⟨?_, ?_, ?_⟩
        · simp [QuicClient.close_stream, hconn]
        · intro h
          simp [QuicClient.close_stream, hconn]
        · intro m hm
          simp at hm
    | err m =>
        refine ⟨?_, ?_, ?_⟩
        · simp [QuicClient.close_stream, hconn]
        · intro hk
          simp at hk
        · intro m' hm
          injection hm with hmm
          subst hmm
          constructor <;>
            simp [QuicClient.close_stream, hconn, QuicClient.setErr,
                  QuicClient.last_error]

/-- Witness for C7: one write through the facade and one stream close. -/
theorem write_stream_no_fin_spec_witness :
    (∃ c', lookupA
        (nativeWriteStream
          [(1, { freshClient "example.com" "" 4433 with conn_init := true })]
          1 3 [9]).2 1 = some c' ∧
      lookupA c'.outgoing 3 = some [⟨[9], 0, false⟩]) ∧
    (({ freshClient "example.com" "" 4433 with conn_init := true } :
        QuicClient).close_stream 3 EngineCallRes.ok).2.2 =
      some ⟨0, 3, 0⟩ := by
  constructor
  · exact (write_stream_no_fin_spec.1
      [(1, { freshClient "example.com" "" 4433 with conn_init := true })]
      1 3 [9] { freshClient "example.com" "" 4433 with conn_init := true }
      (by decide) rfl (by decide) List.Pairwise.nil).2
  · exact (write_stream_no_fin_spec.2.2
      { freshClient "example.com" "" 4433 with conn_init := true }
      3 EngineCallRes.ok rfl).1

/-- Witness for C10. -/
theorem conn_uninitialized_ops_witness :
    (freshClient "example.com" "" 4433).close_stream 0 EngineCallRes.ok =
      (0, freshClient "example.com" "" 4433, none) ∧
    (freshClient "example.com" "" 4433).open_stream (OpenRes.ok 0) =
      (-1, (freshClient "example.com" "" 4433).setErr
             "QUIC connection not initialized") ∧
    (freshClient "example.com" "" 4433).write_stream 0 [1] false =
      (-1, (freshClient "example.com" "" 4433).setErr
             "QUIC connection not initialized") ∧
    ((freshClient "example.com" "" 4433).setErr
        "QUIC connection not initialized").last_error =
      "QUIC connection not initialized" :=
  conn_uninitialized_ops (freshClient "example.com" "" 4433) 0 [1] false
    EngineCallRes.ok (OpenRes.ok 0) rfl

end MqttQuic
